import Mathlib

/-!
# Verification of the Research Article Generator script

Shallow embedding of `src/ArticleGenerator1.py` (a Streamlit single-page
application) and proofs of the specified properties.

Modelling choices:
* Uploaded files carry a declared MIME type (`FType`), the decoded text
  payload (for plain-text files), and the list of paragraph texts (for
  word-processor documents).
* Python strings are Lean `String`s; byte sequences are `List Nat`
  (each element a byte value `< 256`); Unicode code points are `Nat`.
* The in-loop local variable `file_content`, which in the Python source is
  only assigned in the `if`/`elif` branches (lines 90-93), is threaded as an
  `Option String`: `none` models the unassigned state, so reading it while
  `none` models Python's `NameError` (an uncaught exception that aborts
  the script run).
* A click of the "Generate Research Article" button runs `generateRun`,
  which mirrors lines 81-171 of the source: precondition checks, the
  aggregation loop, the `crew.kickoff()` call (passed in as an
  `Except String String` since the orchestration engine is external), the
  error handler, and the download section at the bottom of the script.
-/

namespace ArticleGen

/-- Declared MIME type of an uploaded file: `text/plain`, the
word-processor document type, or anything else. -/
inductive FType where
  | txt
  | docx
  | other
deriving DecidableEq, Repr

/-- An uploaded file: its name, declared type, decoded text payload
(meaningful for `txt` files) and paragraph texts (meaningful for `docx`
files). -/
structure UFile where
  name : String
  ftype : FType
  text : String
  paragraphs : List String
deriving DecidableEq, Repr

/-- Python `"\n".join(xs)` (source line 34). -/
def pyJoin (sep : String) : List String → String
  | [] => ""
  | [s] => s
  | s :: rest => s ++ sep ++ pyJoin sep rest

/-- Source lines 32-34: `read_docx` joins all paragraph texts of the
document with newlines, in document order. -/
def read_docx (paragraphs : List String) : String :=
  pyJoin "\n" paragraphs

/-- The file-type dispatch of source lines 90-93: a `txt` file yields its
decoded text, a `docx` file yields `read_docx`, any other type matches no
branch (`none` — `file_content` is not assigned). -/
def extractOf (f : UFile) : Option String :=
  match f.ftype with
  | FType.txt => some f.text
  | FType.docx => some (read_docx f.paragraphs)
  | FType.other => none

/-- The extracted text of a supported file (total helper used to state
properties about supported uploads). -/
def extractedText (f : UFile) : String :=
  match f.ftype with
  | FType.txt => f.text
  | FType.docx => read_docx f.paragraphs
  | FType.other => ""

/-- The header line of source line 95:
`f"--- File {i}: {uploaded_file.name} ---\n"` (1-based index). -/
def headerMarker (i : Nat) (name : String) : String :=
  "--- File " ++ toString i ++ ": " ++ name ++ " ---" ++ "\n"

/-- The aggregation loop of source lines 89-96. `i` is the 1-based
`enumerate` counter, `prev` the current value of the Python local
`file_content` (`none` = not yet assigned), `acc` the session state
field `combined_content`. If a file of unsupported type is reached, the
Python `if`/`elif` assigns nothing, so `file_content` keeps its previous
value; if it was never assigned, line 95 still appends the header marker
of the current file and only then does line 96 raise `NameError` reading
the unbound local, so the script run aborts with the partial
`combined_content` holding that header (`Except.error` of
`acc ++ headerMarker i f.name`). -/
def processFilesAux : List UFile → Nat → Option String → String →
    Except String String
  | [], _, _, acc => Except.ok acc
  | f :: rest, i, prev, acc =>
    let fc := match extractOf f with
      | some c => some c
      | none => prev
    match fc with
    | none => Except.error (acc ++ headerMarker i f.name)
    | some c =>
      processFilesAux rest (i + 1) (some c)
        (acc ++ headerMarker i f.name ++ c ++ "\n" ++ "\n")

/-- The whole loop of source lines 88-96, starting from the reset
`combined_content = ""` (line 88) and an unassigned `file_content`. -/
def processFiles (files : List UFile) : Except String String :=
  processFilesAux files 1 none ""

/-- The per-file blocks of the aggregator, written over (name, text)
pairs: one block per pair, in input order, each beginning with its header
marker (`i` is the 1-based index of the first pair). -/
def aggBlocks : Nat → List (String × String) → List String
  | _, [] => []
  | i, (n, t) :: rest =>
    (headerMarker i n ++ t ++ "\n" ++ "\n") :: aggBlocks (i + 1) rest

/-- Concatenation of a list of strings, front to back. -/
def strConcat : List String → String
  | [] => ""
  | s :: rest => s ++ strConcat rest

/-- The aggregated combined content over (name, text) pairs. -/
def aggregate (ps : List (String × String)) : String :=
  strConcat (aggBlocks 1 ps)

/-- The (name, extracted text) pair of an uploaded file. -/
def extractPair (f : UFile) : String × String :=
  (f.name, extractedText f)

/-- Python whitespace as stripped by `str.strip()`. -/
def isPySpace (c : Char) : Bool :=
  c = ' ' || c = '\t' || c = '\n' || c = '\r' || c = '\x0B' || c = '\x0C'

/-- Python `str.strip()` on a line (source line 159): leading and
trailing whitespace removed. -/
def pyStrip (s : String) : String :=
  String.mk (((s.data.dropWhile isPySpace).reverse.dropWhile isPySpace).reverse)

/-- Python `str.split('\n')` over the character list: splits at every
newline; `n + 1` pieces for `n` newlines, empty pieces preserved. -/
def pySplitChars : List Char → List (List Char)
  | [] => [[]]
  | c :: rest =>
    let r := pySplitChars rest
    if c = '\n' then [] :: r
    else
      match r with
      | h :: t => (c :: h) :: t
      | [] => [[c]]

/-- Python `str.split('\n')` (source line 158). -/
def pySplit (s : String) : List String :=
  (pySplitChars s.data).map String.mk

/-- The fixed title heading of the exported document (source line 157). -/
def reportTitle : String := "Industry Insights Report"

/-- The export loop of source lines 158-160: appends one paragraph per
line to the document (modelled as the list of paragraph texts). -/
def addParagraphs : List String → List String → List String
  | doc, [] => doc
  | doc, line :: rest => addParagraphs (doc ++ [pyStrip line]) rest

/-- The Report Exporter (source lines 156-160): a document with the fixed
title heading followed by one paragraph per line of the result text. -/
def exportReport (report : String) : List String :=
  addParagraphs [reportTitle] (pySplit report)

/-- The Streamlit session state fields used by the script
(source lines 75-78). -/
structure SessionState where
  combined : String
  finalReport : String
deriving DecidableEq, Repr

/-- The initial session state (source lines 75-78: both fields start as
the empty string). -/
def initialState : SessionState := { combined := "", finalReport := "" }

/-- Inline error message of source line 83. -/
def noFilesMsg : String := "Please upload at least one transcript file."

/-- Inline error message of source line 85. -/
def noKeyMsg : String := "Please enter your Azure OpenAI API Key."

/-- Inline error message of source line 152. -/
def noContentMsg : String := "No content to process."

/-- The message of source line 149: `st.error(f"Error: {str(e)}")`. -/
def errorMsg (e : String) : String := "Error: " ++ e

/-- Models `traceback.format_exc()` of source line 150: the full
diagnostic trace of the exception (abstracted as a tagged copy of the
exception text). -/
def formatExc (e : String) : String :=
  "Traceback (most recent call last):" ++ "\n" ++ e

/-- The observable outcome of one script run triggered by the generate
button: error messages shown via `st.error`, whether the orchestration
boundary (`Crew` construction and `kickoff`) was invoked, whether the run
aborted on an uncaught exception, the session state afterwards, whether
the download button is rendered, and the exported document if so. -/
structure RunResult where
  errors : List String
  crewInvoked : Bool
  crashed : Bool
  state : SessionState
  downloadOffered : Bool
  document : List String
deriving DecidableEq, Repr

/-- The download section of source lines 155-171: rendered on every
(non-aborted) script run; offers the exported document iff the session's
`final_report` is non-empty (Python truthiness at line 155). -/
def downloadSection (st : SessionState) : Bool × List String :=
  if st.finalReport = "" then (false, [])
  else (true, exportReport st.finalReport)

/-- One script run with the generate button clicked (source lines
81-171). `kickoff` is the outcome of the external `crew.kickoff()` call:
`Except.ok result` for a returned report, `Except.error e` for a raised
exception with text `e`. -/
def generateRun (files : List UFile) (apiKey : String)
    (kickoff : Except String String) (st : SessionState) : RunResult :=
  if files.isEmpty then
    -- lines 82-83: missing-files precondition; the script then falls
    -- through to the download section.
    let dl := downloadSection st
    { errors := [noFilesMsg], crewInvoked := false, crashed := false,
      state := st, downloadOffered := dl.1, document := dl.2 }
  else if apiKey = "" then
    -- lines 84-85: missing-credential precondition.
    let dl := downloadSection st
    { errors := [noKeyMsg], crewInvoked := false, crashed := false,
      state := st, downloadOffered := dl.1, document := dl.2 }
  else
    -- lines 88-96: reset and aggregation loop (outside the `try`).
    match processFiles files with
    | Except.error partContent =>
      -- uncaught `NameError`: the script run aborts; the mutations to
      -- `combined_content` made before the crash persist, and the
      -- download section at line 155 is never reached.
      { errors := [], crewInvoked := false, crashed := true,
        state := { st with combined := partContent },
        downloadOffered := false, document := [] }
    | Except.ok combined =>
      let st1 := { st with combined := combined }
      if combined = "" then
        -- line 152
        let dl := downloadSection st1
        { errors := [noContentMsg], crewInvoked := false, crashed := false,
          state := st1, downloadOffered := dl.1, document := dl.2 }
      else
        -- lines 100-150: agents, tasks and crew are constructed and
        -- `kickoff` is run inside the `try`.
        match kickoff with
        | Except.ok result =>
          -- lines 145-147
          let st2 := { st1 with finalReport := result }
          let dl := downloadSection st2
          { errors := [], crewInvoked := true, crashed := false,
            state := st2, downloadOffered := dl.1, document := dl.2 }
        | Except.error e =>
          -- lines 148-150: the exception is caught; `final_report` is
          -- not updated; the script continues to the download section.
          let dl := downloadSection st1
          { errors := [errorMsg e, formatExc e], crewInvoked := true,
            crashed := false, state := st1,
            downloadOffered := dl.1, document := dl.2 }

/-- The session's `combined_content` after a run that passed the
preconditions, as a function of the uploaded files only. -/
def combinedAfter (files : List UFile) : String :=
  match processFiles files with
  | Except.error partContent => partContent
  | Except.ok combined => combined

/-! ## UTF-8 encoding and decoding (byte level)

Source line 91 decodes the uploaded bytes with `decode("utf-8")`. We
model UTF-8 over `List Nat`: `utf8EncodeCp` is the standard encoder of a
code point, `utf8Decode` the standard strict decoder (rejecting stray
continuation bytes, truncated sequences, overlong encodings, surrogates
and out-of-range values, as Python's strict `decode("utf-8")` does). -/

/-- A Unicode scalar value: in range and not a surrogate. -/
def ValidCp (c : Nat) : Prop :=
  c < 1114112 ∧ ¬(55296 ≤ c ∧ c < 57344)

instance (c : Nat) : Decidable (ValidCp c) := by
  unfold ValidCp; infer_instance

/-- UTF-8 encoding of one code point. -/
def utf8EncodeCp (c : Nat) : List Nat :=
  if c < 128 then [c]
  else if c < 2048 then [192 + c / 64, 128 + c % 64]
  else if c < 65536 then
    [224 + c / 4096, 128 + c / 64 % 64, 128 + c % 64]
  else
    [240 + c / 262144, 128 + c / 4096 % 64, 128 + c / 64 % 64,
     128 + c % 64]

/-- UTF-8 encoding of a code-point sequence. -/
def utf8Encode (cs : List Nat) : List Nat :=
  (cs.map utf8EncodeCp).flatten

/-- Predicate for a UTF-8 continuation byte. -/
def isCont (b : Nat) : Bool :=
  decide (128 ≤ b) && decide (b < 192)

mutual

/-- Strict UTF-8 decoder: returns `none` on any malformed input (stray
continuation bytes, truncated sequences, overlong encodings, surrogates,
out-of-range values). Dispatches on the lead byte. -/
def utf8Decode : List Nat → Option (List Nat)
  | [] => some []
  | b :: rest =>
    if b < 128 then (utf8Decode rest).map (fun cs => b :: cs)
    else if b < 192 then none
    else if b < 224 then utf8Dec2 b rest
    else if b < 240 then utf8Dec3 b rest
    else if b < 248 then utf8Dec4 b rest
    else none

/-- Decode the remainder of a two-byte sequence with lead byte `b`. -/
def utf8Dec2 (b : Nat) : List Nat → Option (List Nat)
  | b1 :: r =>
    if isCont b1 then
      let c := (b - 192) * 64 + (b1 - 128)
      if c < 128 then none
      else (utf8Decode r).map (fun cs => c :: cs)
    else none
  | [] => none

/-- Decode the remainder of a three-byte sequence with lead byte `b`. -/
def utf8Dec3 (b : Nat) : List Nat → Option (List Nat)
  | b1 :: b2 :: r =>
    if isCont b1 && isCont b2 then
      let c := (b - 224) * 4096 + (b1 - 128) * 64 + (b2 - 128)
      if c < 2048 then none
      else if 55296 ≤ c ∧ c < 57344 then none
      else (utf8Decode r).map (fun cs => c :: cs)
    else none
  | _ => none

/-- Decode the remainder of a four-byte sequence with lead byte `b`. -/
def utf8Dec4 (b : Nat) : List Nat → Option (List Nat)
  | b1 :: b2 :: b3 :: r =>
    if isCont b1 && isCont b2 && isCont b3 then
      let c := (b - 240) * 262144 + (b1 - 128) * 4096 +
        (b2 - 128) * 64 + (b3 - 128)
      if c < 65536 then none
      else if 1114112 ≤ c then none
      else (utf8Decode r).map (fun cs => c :: cs)
    else none
  | _ => none

end

/-- The plain-text branch of the Document Text Extractor (source line
91): decode the uploaded bytes as UTF-8. -/
def extractPlainText (bytes : List Nat) : Option (List Nat) :=
  utf8Decode bytes

instance {ε α : Type} [DecidableEq ε] [DecidableEq α] : DecidableEq (Except ε α)
  | Except.ok x, Except.ok y =>
    if h : x = y then Decidable.isTrue (congrArg Except.ok h)
    else Decidable.isFalse (fun hh => h (Except.ok.inj hh))
  | Except.ok _, Except.error _ => Decidable.isFalse (fun hh => Except.noConfusion hh)
  | Except.error _, Except.ok _ => Decidable.isFalse (fun hh => Except.noConfusion hh)
  | Except.error x, Except.error y =>
    if h : x = y then Decidable.isTrue (congrArg Except.error h)
    else Decidable.isFalse (fun hh => h (Except.error.inj hh))

/-! ## Helper lemmas -/

theorem strConcat_cons (s : String) (l : List String) :
    strConcat (s :: l) = s ++ strConcat l := rfl

theorem empty_append_str (s : String) : "" ++ s = s :=
  String.ext (by simp [String.data_append])

theorem addParagraphs_eq (ls : List String) :
    ∀ doc : List String, addParagraphs doc ls = doc ++ ls.map pyStrip := by
  induction ls with
  | nil => intro doc; simp [addParagraphs]
  | cons l rest ih => intro doc; simp [addParagraphs, ih]

theorem extractOf_supported (f : UFile) (h : f.ftype ≠ FType.other) :
    extractOf f = some (extractedText f) := by
  cases hf : f.ftype
  · simp [extractOf, extractedText, hf]
  · simp [extractOf, extractedText, hf]
  · exact absurd hf h

theorem processFilesAux_supported (files : List UFile) :
    ∀ (i : Nat) (prev : Option String) (acc : String),
      (∀ f ∈ files, f.ftype ≠ FType.other) →
      processFilesAux files i prev acc =
        Except.ok (acc ++ strConcat (aggBlocks i (files.map extractPair))) := by
  induction files with
  | nil =>
    intro i prev acc _
    simp [processFilesAux, aggBlocks, strConcat]
  | cons f rest ih =>
    intro i prev acc h
    have hf := h f (List.mem_cons_self f rest)
    have hr : ∀ g ∈ rest, g.ftype ≠ FType.other :=
      fun g hg => h g (List.mem_cons_of_mem f hg)
    simp only [processFilesAux, extractOf_supported f hf, List.map_cons,
      extractPair, aggBlocks, strConcat_cons,
      ih (i + 1) (some (extractedText f))
        (acc ++ headerMarker i f.name ++ extractedText f ++ "\n" ++ "\n") hr]
    simp [String.append_assoc]

theorem aggBlocks_length (ps : List (String × String)) :
    ∀ i, (aggBlocks i ps).length = ps.length := by
  induction ps with
  | nil => intro i; rfl
  | cons q rest ih => intro i; obtain ⟨n, t⟩ := q; simp [aggBlocks, ih]

theorem aggBlocks_enumFrom (ps : List (String × String)) :
    ∀ i, aggBlocks i ps =
      (List.enumFrom i ps).map
        (fun q => headerMarker q.1 q.2.1 ++ q.2.2 ++ "\n" ++ "\n") := by
  induction ps with
  | nil => intro i; rfl
  | cons q rest ih =>
    intro i; obtain ⟨n, t⟩ := q; simp [aggBlocks, List.enumFrom, ih]

theorem strConcat_aggBlocks_sub (ps : List (String × String)) :
    ∀ (i : Nat) (p : String × String), p ∈ ps →
      ∃ a b, strConcat (aggBlocks i ps) = a ++ (p.2 ++ b) := by
  induction ps with
  | nil => intro i p hp; cases hp
  | cons q rest ih =>
    intro i p hp
    obtain ⟨n, t⟩ := q
    cases hp with
    | head =>
      refine ⟨headerMarker i n, "\n" ++ "\n" ++ strConcat (aggBlocks (i + 1) rest), ?_⟩
      simp [aggBlocks, strConcat_cons, String.append_assoc]
    | tail _ hm =>
      obtain ⟨a, b, hab⟩ := ih (i + 1) p hm
      refine ⟨headerMarker i n ++ t ++ "\n" ++ "\n" ++ a, b, ?_⟩
      simp [aggBlocks, strConcat_cons, String.append_assoc, hab]

theorem pyJoin_intersperse (sep : String) :
    ∀ ps, pyJoin sep ps = strConcat (List.intersperse sep ps)
  | [] => rfl
  | [s] => by simp [pyJoin, List.intersperse, strConcat]
  | s :: s2 :: rest => by
    simp [pyJoin, List.intersperse_cons_cons, strConcat_cons,
      pyJoin_intersperse sep (s2 :: rest), String.append_assoc]

/-! ## Claim theorems -/

/-- Claim C6: extraction of a word-processor document concatenates all
paragraph texts in document order separated by newlines; on paragraph
texts ["A", "B", ""] it returns "A\nB\n". -/
theorem c6_read_docx_paragraph_join :
    read_docx ["A", "B", ""] = "A\nB\n" ∧
    ∀ ps, read_docx ps = strConcat (List.intersperse "\n" ps) :=
  ⟨by decide, fun ps => pyJoin_intersperse "\n" ps⟩

/-- Claim C4: the exported document is the fixed title heading followed
by exactly one paragraph per newline-delimited line of the result text,
in original line order, with no lines dropped or merged. -/
theorem c4_export_title_then_one_paragraph_per_line (r : String) :
    exportReport r = reportTitle :: (pySplit r).map pyStrip ∧
    (exportReport r).length = (pySplit r).length + 1 := by
  have h := addParagraphs_eq (pySplit r) [reportTitle]
  exact ⟨by simpa [exportReport] using h, by simp [exportReport, h]⟩

/-- Claim C9: each exported paragraph equals the corresponding line of
the result text with leading and trailing whitespace removed, so a line
with surrounding whitespace is not preserved verbatim (concrete instance:
the lines "  x " and " y" export as paragraphs "x" and "y"). -/
theorem c9_paragraphs_are_stripped_lines :
    (∀ r, (exportReport r).tail = (pySplit r).map pyStrip) ∧
    pySplit ("  x " ++ "\n" ++ " y") = ["  x ", " y"] ∧
    exportReport ("  x " ++ "\n" ++ " y") = [reportTitle, "x", "y"] := by
  refine ⟨fun r => ?_, by decide, by decide⟩
  simp [exportReport, addParagraphs_eq]

/-- Claim C7: with no files uploaded, the generation action reports the
inline missing-files error and never invokes the orchestration boundary
(crew construction and kickoff). -/
theorem c7_no_files_blocks_orchestration (apiKey : String)
    (kickoff : Except String String) (st : SessionState) :
    (generateRun [] apiKey kickoff st).errors = [noFilesMsg] ∧
    (generateRun [] apiKey kickoff st).crewInvoked = false := by
  constructor <;> rfl

/-- Claim C8: with an empty credential field, the generation action
reports an inline missing-precondition error (the missing-files message
when the upload list is also empty, otherwise the missing-credential
message) and never invokes the orchestration boundary. -/
theorem c8_empty_key_blocks_orchestration (files : List UFile)
    (kickoff : Except String String) (st : SessionState) :
    ((generateRun files "" kickoff st).errors = [noFilesMsg] ∨
      (generateRun files "" kickoff st).errors = [noKeyMsg]) ∧
    (generateRun files "" kickoff st).crewInvoked = false := by
  cases files with
  | nil => exact ⟨Or.inl rfl, rfl⟩
  | cons f rest => exact ⟨Or.inr (by simp [generateRun]), by simp [generateRun]⟩

/-- Claim C2: for every sequence of uploaded files of supported types,
the aggregation loop succeeds and the combined content is the
concatenation of exactly one header-marked block per file — in input
order, with 1-based markers — and contains every extracted input text
verbatim as a substring. -/
theorem c2_aggregator_blocks_in_order (files : List UFile)
    (h : ∀ f ∈ files, f.ftype ≠ FType.other) :
    processFiles files = Except.ok (aggregate (files.map extractPair)) ∧
    aggBlocks 1 (files.map extractPair) =
      (List.enumFrom 1 (files.map extractPair)).map
        (fun q => headerMarker q.1 q.2.1 ++ q.2.2 ++ "\n" ++ "\n") ∧
    (aggBlocks 1 (files.map extractPair)).length = files.length ∧
    ∀ f ∈ files, ∃ a b,
      aggregate (files.map extractPair) = a ++ (extractedText f ++ b) := by
  refine ⟨?_, aggBlocks_enumFrom _ 1, ?_, ?_⟩
  · have h2 := processFilesAux_supported files 1 none "" h
    unfold processFiles aggregate
    rw [h2, empty_append_str]
  · rw [aggBlocks_length, List.length_map]
  · intro f hf
    exact strConcat_aggBlocks_sub _ 1 (extractPair f) (List.mem_map_of_mem _ hf)

/-- Witness for claim C2 at a concrete one-file upload. -/
theorem c2_aggregator_witness :
    (∀ f ∈ [UFile.mk "a.txt" FType.txt "hi" []], f.ftype ≠ FType.other) ∧
    (processFiles [UFile.mk "a.txt" FType.txt "hi" []] =
        Except.ok (aggregate ([UFile.mk "a.txt" FType.txt "hi" []].map extractPair)) ∧
      aggBlocks 1 ([UFile.mk "a.txt" FType.txt "hi" []].map extractPair) =
        (List.enumFrom 1 ([UFile.mk "a.txt" FType.txt "hi" []].map extractPair)).map
          (fun q => headerMarker q.1 q.2.1 ++ q.2.2 ++ "\n" ++ "\n") ∧
      (aggBlocks 1 ([UFile.mk "a.txt" FType.txt "hi" []].map extractPair)).length =
        [UFile.mk "a.txt" FType.txt "hi" []].length ∧
      ∀ f ∈ [UFile.mk "a.txt" FType.txt "hi" []], ∃ a b,
        aggregate ([UFile.mk "a.txt" FType.txt "hi" []].map extractPair) =
          a ++ (extractedText f ++ b)) :=
  ⟨by decide, c2_aggregator_blocks_in_order _ (by decide)⟩

/-- Claim C3 counterexample: an uploaded file of unsupported type does
contribute downstream and can crash the run. With files
[("a.txt", txt, "X"), ("b.pdf", other)] the combined content is not the
single block of the supported file: the unsupported file adds a block
that reuses "X", the content of the previous file. A sole unsupported
file appends its header marker and then aborts the loop (uncaught
NameError on `file_content` at line 96), leaving that header as the
combined content instead of silently extracting nothing. -/
theorem c3_counterexample :
    processFiles
        [UFile.mk "a.txt" FType.txt "X" [], UFile.mk "b.pdf" FType.other "" []] ≠
      Except.ok (aggregate [extractPair (UFile.mk "a.txt" FType.txt "X" [])]) ∧
    processFiles
        [UFile.mk "a.txt" FType.txt "X" [], UFile.mk "b.pdf" FType.other "" []] =
      Except.ok
        (aggregate [extractPair (UFile.mk "a.txt" FType.txt "X" []), ("b.pdf", "X")]) ∧
    processFiles [UFile.mk "c.pdf" FType.other "" []] =
      Except.error (headerMarker 1 "c.pdf") := by
  refine ⟨by decide, ?_, ?_⟩ <;> rfl

/-- Claim C3 amended: a file of unsupported type is assigned no extracted
text of its own; if it comes first, the run appends its header marker and
then aborts with an uncaught NameError, so exactly that header reaches
the combined content, and otherwise it contributes a header block that
reuses the extracted content of the file before it. -/
theorem c3_unsupported_reuses_or_crashes (f : UFile)
    (hf : f.ftype = FType.other) :
    (∀ rest, processFiles (f :: rest) = Except.error (headerMarker 1 f.name)) ∧
    ∀ g, g.ftype = FType.txt →
      processFiles [g, f] =
        Except.ok (headerMarker 1 g.name ++ g.text ++ "\n" ++ "\n" ++
          (headerMarker 2 f.name ++ (g.text ++ ("\n" ++ "\n")))) := by
  constructor
  · intro rest
    simp [processFiles, processFilesAux, extractOf, hf, empty_append_str]
  · intro g hg
    simp [processFiles, processFilesAux, extractOf, hf, hg, empty_append_str,
      String.append_assoc]

/-- Witness for the amended claim C3 at concrete files. -/
theorem c3_amended_witness :
    (UFile.mk "b.pdf" FType.other "" []).ftype = FType.other ∧
    processFiles [UFile.mk "b.pdf" FType.other "" []] =
      Except.error (headerMarker 1 "b.pdf") ∧
    processFiles
        [UFile.mk "a.txt" FType.txt "X" [], UFile.mk "b.pdf" FType.other "" []] =
      Except.ok (headerMarker 1 "a.txt" ++ "X" ++ "\n" ++ "\n" ++
        (headerMarker 2 "b.pdf" ++ ("X" ++ ("\n" ++ "\n")))) :=
  ⟨by decide,
   (c3_unsupported_reuses_or_crashes (UFile.mk "b.pdf" FType.other "" [])
      (by decide)).1 [],
   (c3_unsupported_reuses_or_crashes (UFile.mk "b.pdf" FType.other "" [])
      (by decide)).2 (UFile.mk "a.txt" FType.txt "X" []) (by decide)⟩

/-- Claim C10: once the preconditions pass, the generation action resets
the session combined content before aggregating, so the combined content
after the run is a function of the currently uploaded files only — it
never accumulates transcripts from previous runs. -/
theorem c10_combined_depends_only_on_files (files : List UFile)
    (apiKey : String) (kickoff : Except String String) (st : SessionState)
    (hfiles : files ≠ []) (hkey : apiKey ≠ "") :
    (generateRun files apiKey kickoff st).state.combined = combinedAfter files := by
  have hfe : files.isEmpty = false := by
    cases files with
    | nil => exact absurd rfl hfiles
    | cons f rest => rfl
  cases hp : processFiles files with
  | error p => simp [generateRun, hfe, hkey, hp, combinedAfter]
  | ok c =>
    by_cases hc : c = ""
    · simp [generateRun, hfe, hkey, hp, hc, combinedAfter]
    · cases kickoff <;> simp [generateRun, hfe, hkey, hp, hc, combinedAfter]

/-- Witness for claim C10: a run over one file from a polluted prior
session state still yields the combined content determined by the files. -/
theorem c10_witness :
    ([UFile.mk "t.txt" FType.txt "hi" []] : List UFile) ≠ [] ∧
    ("k" : String) ≠ "" ∧
    (generateRun [UFile.mk "t.txt" FType.txt "hi" []] "k" (Except.ok "r")
        (SessionState.mk "STALE COMBINED" "STALE REPORT")).state.combined =
      combinedAfter [UFile.mk "t.txt" FType.txt "hi" []] :=
  ⟨by decide, by decide,
   c10_combined_depends_only_on_files _ _ _ _ (by decide) (by decide)⟩

/-- Claim C1 counterexample: a kickoff exception does not always leave
the UI without a download button. In a session whose `final_report`
still holds the report of an earlier successful run, a failing run
reaches the orchestration boundary, catches the exception (lines
148-150 leave `final_report` intact), and line 155 then still renders
the download button for that prior report. -/
theorem c1_stale_report_counterexample :
    (generateRun [UFile.mk "t.txt" FType.txt "hi" []] "k" (Except.error "boom")
        (SessionState.mk "" "OLD REPORT")).crewInvoked = true ∧
    errorMsg "boom" ∈
      (generateRun [UFile.mk "t.txt" FType.txt "hi" []] "k" (Except.error "boom")
        (SessionState.mk "" "OLD REPORT")).errors ∧
    (generateRun [UFile.mk "t.txt" FType.txt "hi" []] "k" (Except.error "boom")
        (SessionState.mk "" "OLD REPORT")).downloadOffered = true := by
  refine ⟨?_, ?_, ?_⟩ <;> decide

/-- Claim C1 amended: in a session that holds no previously generated
report (in particular the initial one), when the external kickoff raises
an exception on a run that reached the orchestration boundary, the run
surfaces the error message together with the diagnostic trace and the
download button is not offered. -/
theorem c1_kickoff_failure_shows_error_no_download (files : List UFile)
    (apiKey : String) (e : String) (st : SessionState)
    (hst : st.finalReport = "")
    (h : (generateRun files apiKey (Except.error e) st).crewInvoked = true) :
    errorMsg e ∈ (generateRun files apiKey (Except.error e) st).errors ∧
    formatExc e ∈ (generateRun files apiKey (Except.error e) st).errors ∧
    (generateRun files apiKey (Except.error e) st).downloadOffered = false := by
  cases hfe : files.isEmpty with
  | true => exact absurd h (by simp [generateRun, hfe])
  | false =>
    by_cases hk : apiKey = ""
    · exact absurd h (by simp [generateRun, hfe, hk])
    · cases hp : processFiles files with
      | error p => exact absurd h (by simp [generateRun, hfe, hk, hp])
      | ok c =>
        by_cases hc : c = ""
        · exact absurd h (by simp [generateRun, hfe, hk, hp, hc])
        · simp [generateRun, hfe, hk, hp, hc, downloadSection, hst]

/-- Witness for claim C1 at a concrete failing run. -/
theorem c1_witness :
    initialState.finalReport = "" ∧
    (generateRun [UFile.mk "t.txt" FType.txt "hi" []] "k" (Except.error "boom")
        initialState).crewInvoked = true ∧
    (errorMsg "boom" ∈
        (generateRun [UFile.mk "t.txt" FType.txt "hi" []] "k" (Except.error "boom")
          initialState).errors ∧
      formatExc "boom" ∈
        (generateRun [UFile.mk "t.txt" FType.txt "hi" []] "k" (Except.error "boom")
          initialState).errors ∧
      (generateRun [UFile.mk "t.txt" FType.txt "hi" []] "k" (Except.error "boom")
          initialState).downloadOffered = false) :=
  ⟨by decide, by decide,
   c1_kickoff_failure_shows_error_no_download _ _ _ _ (by decide) (by decide)⟩

theorem utf8Decode_encodeCp (c : Nat) (rest : List Nat) (hc : ValidCp c) :
    utf8Decode (utf8EncodeCp c ++ rest) =
      (utf8Decode rest).map (fun cs => c :: cs) := by
  obtain ⟨hlt, hsur⟩ := hc
  by_cases h1 : c < 128
  · have e0 : utf8EncodeCp c ++ rest = c :: rest := by simp [utf8EncodeCp, h1]
    rw [e0, utf8Decode, if_pos h1]
  · by_cases h2 : c < 2048
    · have e0 : utf8EncodeCp c ++ rest =
          (192 + c / 64) :: (128 + c % 64) :: rest := by
        simp [utf8EncodeCp, h1, h2]
      have hb1 : ¬(192 + c / 64 < 128) := by omega
      have hb2 : ¬(192 + c / 64 < 192) := by omega
      have hb3 : 192 + c / 64 < 224 := by omega
      have hcont : isCont (128 + c % 64) = true := by
        simp only [isCont, Bool.and_eq_true, decide_eq_true_eq]
        omega
      have hval : (192 + c / 64 - 192) * 64 + (128 + c % 64 - 128) = c := by
        omega
      rw [e0, utf8Decode, if_neg hb1, if_neg hb2, if_pos hb3,
        utf8Dec2, if_pos hcont]
      simp only [hval]
      rw [if_neg h1]
    · by_cases h3 : c < 65536
      · have e0 : utf8EncodeCp c ++ rest =
            (224 + c / 4096) :: (128 + c / 64 % 64) :: (128 + c % 64) :: rest := by
          simp [utf8EncodeCp, h1, h2, h3]
        have hb1 : ¬(224 + c / 4096 < 128) := by omega
        have hb2 : ¬(224 + c / 4096 < 192) := by omega
        have hb3 : ¬(224 + c / 4096 < 224) := by omega
        have hb4 : 224 + c / 4096 < 240 := by omega
        have hcont : (isCont (128 + c / 64 % 64) && isCont (128 + c % 64)) = true := by
          simp only [isCont, Bool.and_eq_true, decide_eq_true_eq]
          omega
        have hval : (224 + c / 4096 - 224) * 4096 +
            (128 + c / 64 % 64 - 128) * 64 + (128 + c % 64 - 128) = c := by
          omega
        rw [e0, utf8Decode, if_neg hb1, if_neg hb2, if_neg hb3, if_pos hb4,
          utf8Dec3, if_pos hcont]
        simp only [hval]
        rw [if_neg h2, if_neg hsur]
      · have e0 : utf8EncodeCp c ++ rest =
            (240 + c / 262144) :: (128 + c / 4096 % 64) ::
              (128 + c / 64 % 64) :: (128 + c % 64) :: rest := by
          simp [utf8EncodeCp, h1, h2, h3]
        have hb1 : ¬(240 + c / 262144 < 128) := by omega
        have hb2 : ¬(240 + c / 262144 < 192) := by omega
        have hb3 : ¬(240 + c / 262144 < 224) := by omega
        have hb4 : ¬(240 + c / 262144 < 240) := by omega
        have hb5 : 240 + c / 262144 < 248 := by omega
        have hcont : (isCont (128 + c / 4096 % 64) &&
            isCont (128 + c / 64 % 64) && isCont (128 + c % 64)) = true := by
          simp only [isCont, Bool.and_eq_true, decide_eq_true_eq]
          omega
        have hval : (240 + c / 262144 - 240) * 262144 +
            (128 + c / 4096 % 64 - 128) * 4096 +
            (128 + c / 64 % 64 - 128) * 64 + (128 + c % 64 - 128) = c := by
          omega
        have hr : ¬(1114112 ≤ c) := by omega
        rw [e0, utf8Decode, if_neg hb1, if_neg hb2, if_neg hb3, if_neg hb4,
          if_pos hb5, utf8Dec4, if_pos hcont]
        simp only [hval]
        rw [if_neg h3, if_neg hr]

theorem utf8_roundtrip (cs : List Nat) (h : ∀ c ∈ cs, ValidCp c) :
    utf8Decode (utf8Encode cs) = some cs := by
  induction cs with
  | nil => rfl
  | cons c rest ih =>
    have hc := h c (List.mem_cons_self c rest)
    have hr := fun x hx => h x (List.mem_cons_of_mem c hx)
    have he : utf8Encode (c :: rest) = utf8EncodeCp c ++ utf8Encode rest := by
      simp [utf8Encode]
    rw [he, utf8Decode_encodeCp c (utf8Encode rest) hc, ih hr]
    rfl

/-- Claim C5: for every text made of Unicode scalar values, extracting a
plain-text file whose uploaded bytes are the UTF-8 encoding of the text
returns exactly that text — decoding is a round-trip identity. -/
theorem c5_plaintext_roundtrip (t : List Nat) (h : ∀ c ∈ t, ValidCp c) :
    extractPlainText (utf8Encode t) = some t :=
  utf8_roundtrip t h

/-- Witness for claim C5 on a text with 1-, 2-, 3- and 4-byte
code points (A, é, €, 𝄞). -/
theorem c5_roundtrip_witness :
    (∀ c ∈ [65, 233, 8364, 119070], ValidCp c) ∧
    extractPlainText (utf8Encode [65, 233, 8364, 119070]) =
      some [65, 233, 8364, 119070] :=
  ⟨by decide, c5_plaintext_roundtrip _ (by decide)⟩

end ArticleGen
